import Mathlib

/-!
Shallow embedding of `mgraphics_image_rendering.js`: a Max/MSP jsui script that
caches an upscaled off-screen raster (`Image`) and composites it back at
inverse scale.  State variables, the `paint` entry point, the shared
`drawStuff` routine and the message handlers (`msg_float`, `msg_int`, `bang`,
`onidle`, `onidleout`, `direct_draw`) are translated directly from the source.
Geometry is modelled over `ℚ`; host-visible effects (outlet bangs, redraw
requests, off-screen allocation) are recorded as an explicit trace.
-/

/-- A 2D affine transform `[[a, c, e], [b, d, f]]`, the transform matrix of an
MGraphics context. -/
structure Mat where
  a : ℚ
  b : ℚ
  c : ℚ
  d : ℚ
  e : ℚ
  f : ℚ
deriving DecidableEq, Repr

/-- The identity transform. -/
def Mat.idm : Mat := ⟨1, 0, 0, 1, 0, 0⟩

/-- Matrix product of two affine transforms. -/
def Mat.mul (m n : Mat) : Mat :=
  ⟨m.a * n.a + m.c * n.b, m.b * n.a + m.d * n.b,
   m.a * n.c + m.c * n.d, m.b * n.c + m.d * n.d,
   m.a * n.e + m.c * n.f + m.e, m.b * n.e + m.d * n.f + m.f⟩

/-- `scale(sx, sy)`: post-multiplies the current transform by a scale, as the
MGraphics / cairo `scale` call does. -/
def Mat.scaleBy (m : Mat) (sx sy : ℚ) : Mat := m.mul ⟨sx, 0, 0, sy, 0, 0⟩

/-- `translate(dx, dy)`: post-multiplies the current transform by a
translation. -/
def Mat.translateBy (m : Mat) (dx dy : ℚ) : Mat := m.mul ⟨1, 0, 0, 1, dx, dy⟩

/-- A drawing command recorded against an MGraphics context.  The drawn image
of `image_surface_draw` is recorded by its pixel size and build scale. -/
inductive DrawOp where
  | rect (x y w h : ℚ)
  | setSource (color : String)
  | fillOp
  | fillPreserveOp
  | strokeOp
  | lineWidthOp (w : ℚ)
  | fontFaceOp (name : String)
  | fontSizeOp (sz : ℚ)
  | moveToOp (x y : ℚ)
  | showTextOp (t : String)
  | scaleOp (sx sy : ℚ)
  | translateOp (dx dy : ℚ)
  | setMatrixOp (m : Mat)
  | identityOp
  | imageDrawOp (w h builtScale : ℚ)
deriving DecidableEq, Repr

/-- An MGraphics context: fixed pixel size, current transform, and the ordered
list of commands issued to it. -/
structure MG where
  width : ℚ
  height : ℚ
  matrix : Mat
  ops : List DrawOp
deriving DecidableEq, Repr

/-- `new MGraphics(w, h)`: fresh context with identity transform. -/
def MG.new (w h : ℚ) : MG := ⟨w, h, Mat.idm, []⟩

def MG.rectangle (mg : MG) (x y w h : ℚ) : MG :=
  { mg with ops := mg.ops ++ [DrawOp.rect x y w h] }

def MG.set_source_rgba (mg : MG) (color : String) : MG :=
  { mg with ops := mg.ops ++ [DrawOp.setSource color] }

def MG.fill (mg : MG) : MG := { mg with ops := mg.ops ++ [DrawOp.fillOp] }

def MG.fill_preserve (mg : MG) : MG :=
  { mg with ops := mg.ops ++ [DrawOp.fillPreserveOp] }

def MG.stroke (mg : MG) : MG := { mg with ops := mg.ops ++ [DrawOp.strokeOp] }

def MG.set_line_width (mg : MG) (w : ℚ) : MG :=
  { mg with ops := mg.ops ++ [DrawOp.lineWidthOp w] }

def MG.select_font_face (mg : MG) (name : String) : MG :=
  { mg with ops := mg.ops ++ [DrawOp.fontFaceOp name] }

def MG.set_font_size (mg : MG) (sz : ℚ) : MG :=
  { mg with ops := mg.ops ++ [DrawOp.fontSizeOp sz] }

def MG.move_to (mg : MG) (x y : ℚ) : MG :=
  { mg with ops := mg.ops ++ [DrawOp.moveToOp x y] }

def MG.show_text (mg : MG) (t : String) : MG :=
  { mg with ops := mg.ops ++ [DrawOp.showTextOp t] }

/-- `scale(sx, sy)` on a context mutates its transform and is recorded. -/
def MG.scale (mg : MG) (sx sy : ℚ) : MG :=
  { mg with matrix := mg.matrix.scaleBy sx sy, ops := mg.ops ++ [DrawOp.scaleOp sx sy] }

/-- `translate(dx, dy)` on a context mutates its transform and is recorded. -/
def MG.translate (mg : MG) (dx dy : ℚ) : MG :=
  { mg with matrix := mg.matrix.translateBy dx dy, ops := mg.ops ++ [DrawOp.translateOp dx dy] }

/-- `get_matrix()`. -/
def MG.get_matrix (mg : MG) : Mat := mg.matrix

/-- `set_matrix(m)`: replaces the transform by the given value. -/
def MG.set_matrix (mg : MG) (m : Mat) : MG :=
  { mg with matrix := m, ops := mg.ops ++ [DrawOp.setMatrixOp m] }

/-- `identity_matrix()`: resets the transform to the identity. -/
def MG.identity_matrix (mg : MG) : MG :=
  { mg with matrix := Mat.idm, ops := mg.ops ++ [DrawOp.identityOp] }

/-- An `Image(tmp_mg)` snapshot: pixel size and drawn content of the source
context, together with the value of `imgScale` at the moment it was built
(the source's comment on `imgScale`: "The scale factor used for the cached
Image()"). -/
structure Image where
  width : ℚ
  height : ℚ
  builtAtScale : ℚ
  content : List DrawOp
deriving DecidableEq, Repr

/-- `new Image(tmp_mg)` built while `imgScale = builtScale`. -/
def Image.ofMG (mg : MG) (builtScale : ℚ) : Image :=
  ⟨mg.width, mg.height, builtScale, mg.ops⟩

/-- `image_surface_draw(img)`: draws the image at the current origin under the
current transform. -/
def MG.image_surface_draw (mg : MG) (img : Image) : MG :=
  { mg with ops := mg.ops ++ [DrawOp.imageDrawOp img.width img.height img.builtAtScale] }

/-- Host-observable effects of a call: `outlet(0, "bang")` after paint,
`outlet(1, "bang")` at the end of `drawStuff`, `mgraphics.redraw()` repaint
requests, off-screen `new MGraphics(...)` allocations, and the Max `error()`
reporting channel (available to the script, never called by it). -/
inductive TraceEvent where
  | paintBang
  | drawBang
  | redrawRequest
  | errorReport (msg : String)
  | allocOffscreen (w h : ℚ)
deriving DecidableEq, Repr

/-- Whether a trace event is an error report to the host. -/
def TraceEvent.isError : TraceEvent → Bool
  | .errorReport _ => true
  | _ => false

/-- Number of `drawStuff`-executed signals (`outlet(1, "bang")`) in a trace. -/
def countDraw (l : List TraceEvent) : Nat :=
  l.countP (fun e => decide (e = TraceEvent.drawBang))

/-- Number of off-screen context allocations in a trace. -/
def countAlloc (l : List TraceEvent) : Nat :=
  l.countP (fun e => match e with | TraceEvent.allocOffscreen _ _ => true | _ => false)

/-- Number of `scale` commands in a command list. -/
def countScaleOps (l : List DrawOp) : Nat :=
  l.countP (fun op => match op with | DrawOp.scaleOp _ _ => true | _ => false)

/-- Theme color names and fixed strings used by the script. -/
def live_lcd_bg : String := "live_lcd_bg"

def live_lcd_control_fg : String := "live_lcd_control_fg"

def live_lcd_control_fg_alt : String := "live_lcd_control_fg_alt"

def live_active_automation : String := "live_active_automation"

def abletonFont : String := "Ableton Sans Medium"

def labelText : String := "A quick brown fox jumps over the lazy dog."

/-- `mg.text_measure(str)`.  The metric is host/font dependent; it is modelled
as a fixed concrete function of the string (no claim depends on its values,
only on how `drawStuff` uses the result). -/
def text_measure (s : String) : ℚ × ℚ := ((6 : ℚ) * s.length, 10)

/-- The script's global state: the cached image, the scale factor, the
mouseover flag, the draw-mode flag, and the visible `mgraphics` context. -/
structure State where
  cachedImg : Option Image
  imgScale : ℚ
  idle : Bool
  useImage : Bool
  mg : MG
deriving DecidableEq, Repr

/-- Initial state after script load for a host-supplied visible size:
`cachedImg = null`, `imgScale = 2`, `idle = 0`, `useImage = 1`. -/
def initState (w h : ℚ) : State :=
  { cachedImg := none, imgScale := 2, idle := false, useImage := true, mg := MG.new w h }

/-- `function drawStuff(mg)`.  `visW, visH` are the visible context's
`mgraphics.size` (the source reads the global `mgraphics.size`, deliberately
not `mg.size`); `mg` is the target context drawn into.  Returns the mutated
target and the emitted trace (`outlet(1, "bang")`). -/
def drawStuff (visW visH : ℚ) (mg : MG) : MG × List TraceEvent :=
  let mg := mg.set_line_width 1
  let mtx := mg.get_matrix
  let mg := mg.translate (3/2) (3/2)
  let mg := mg.rectangle 0 0 (visW - 3) (visH - 3)
  let mg := mg.set_source_rgba live_lcd_bg
  let mg := mg.fill_preserve
  let mg := mg.set_source_rgba live_lcd_control_fg
  let mg := mg.stroke
  let mg := mg.set_matrix mtx
  let mg := mg.select_font_face abletonFont
  let mg := mg.set_font_size 10
  let txtsize := text_measure labelText
  let mg := mg.move_to 5 ((visH + txtsize.2 / 2) / 2)
  let mg := mg.set_source_rgba live_lcd_control_fg_alt
  let mg := mg.show_text labelText
  (mg, [TraceEvent.drawBang])

/-- The hover-indicator overlay at the end of `paint` (`if (idle) { ... }`). -/
def hoverOverlay (s : State) (mg : MG) : MG :=
  if s.idle then
    let rsz : ℚ := 5
    ((mg.set_source_rgba live_active_automation).rectangle
        (mg.width - 2 * rsz) ((mg.height - rsz) / 2) rsz rsz).fill
  else mg

/-- `function paint()`.  Background fill, then either the cached-image path
(build on miss, composite at inverse scale, reset transform) or direct
drawing, then the hover overlay, then `outlet(0, "bang")`. -/
def paint (s : State) : State × List TraceEvent :=
  let w := s.mg.width
  let h := s.mg.height
  let mg0 := ((s.mg.rectangle 0 0 w h).set_source_rgba live_lcd_bg).fill
  if s.useImage then
    let built : Image × MG × List TraceEvent :=
      match s.cachedImg with
      | some img => (img, mg0, [])
      | none =>
        let tmp := MG.new (w * s.imgScale) (h * s.imgScale)
        let tmp := tmp.scale s.imgScale s.imgScale
        let res := drawStuff w h tmp
        let img := Image.ofMG res.1 s.imgScale
        (img, mg0, TraceEvent.allocOffscreen (w * s.imgScale) (h * s.imgScale) :: res.2)
    let cimg := built.1
    let mg1 := built.2.1
    let mg2 := ((mg1.scale (1 / s.imgScale) (1 / s.imgScale)).image_surface_draw cimg).identity_matrix
    let mg3 := hoverOverlay s mg2
    ({ s with cachedImg := some cimg, mg := mg3 }, built.2.2 ++ [TraceEvent.paintBang])
  else
    let res := drawStuff w h mg0
    let mg3 := hoverOverlay s res.1
    ({ s with mg := mg3 }, res.2 ++ [TraceEvent.paintBang])

/-- `function msg_float(v)`: clamp the scale, drop the cached image, request a
repaint. -/
def msg_float (v : ℚ) (s : State) : State × List TraceEvent :=
  ({ s with imgScale := max (1/8 : ℚ) (min 8 v), cachedImg := none },
   [TraceEvent.redrawRequest])

/-- `function msg_int(v)`: delegates to `msg_float`. -/
def msg_int (v : ℤ) (s : State) : State × List TraceEvent := msg_float (v : ℚ) s

/-- `function bang()`: drop the cached image, request a repaint. -/
def bangHandler (s : State) : State × List TraceEvent :=
  ({ s with cachedImg := none }, [TraceEvent.redrawRequest])

/-- `function onidle()`: hover-enter. -/
def onidle (s : State) : State × List TraceEvent :=
  ({ s with idle := true }, [TraceEvent.redrawRequest])

/-- `function onidleout()`: hover-leave. -/
def onidleout (s : State) : State × List TraceEvent :=
  ({ s with idle := false }, [TraceEvent.redrawRequest])

/-- A Max message argument as received by `direct_draw(v)`: numeric atoms
arrive as numbers, symbols as strings. -/
inductive JSVal where
  | jsNum (q : ℚ)
  | jsStr (s : String)
deriving DecidableEq, Repr

/-- Truncation toward zero, the value of JavaScript `parseInt` on a finite
number whose decimal rendering has no exponent. -/
def ratTrunc (q : ℚ) : ℤ := if 0 ≤ q then ⌊q⌋ else ⌈q⌉

/-- JavaScript `parseInt` on a string: skip leading spaces, optional sign,
leading base-10 digits; `NaN` (here `none`) when no digit is found. -/
def parseIntStr (s : String) : Option ℤ :=
  let cs := s.data.dropWhile (fun c => c = ' ')
  let signed : ℤ × List Char :=
    match cs with
    | '-' :: r => (-1, r)
    | '+' :: r => (1, r)
    | r => (1, r)
  let ds := signed.2.takeWhile Char.isDigit
  if ds.isEmpty then none
  else some (signed.1 * (ds.foldl (fun a c => a * 10 + (c.toNat - 48)) 0 : Nat))

/-- JavaScript `parseInt(v)` for the argument kinds Max passes to a message
handler (`NaN` is `none`). -/
def parseIntJS : JSVal → Option ℤ
  | .jsNum q => some (ratTrunc q)
  | .jsStr s => parseIntStr s

/-- `function direct_draw(v)`: `useImage = parseInt(v) == 0` (a `NaN`
comparison is false), drop the cached image, request a repaint. -/
def direct_draw (v : JSVal) (s : State) : State × List TraceEvent :=
  ({ s with useImage := parseIntJS v == some 0, cachedImg := none },
   [TraceEvent.redrawRequest])

/-- An external event delivered to the script: a host paint callback, one of
the message handlers, or a host resize of the visible surface. -/
inductive Event where
  | evPaint
  | evMsgFloat (v : ℚ)
  | evMsgInt (v : ℤ)
  | evBang
  | evIdle
  | evIdleOut
  | evDirectDraw (v : JSVal)
  | evResize (w h : ℚ)

/-- One step of the event loop (traces discarded). -/
def stepEv (s : State) : Event → State
  | .evPaint => (paint s).1
  | .evMsgFloat v => (msg_float v s).1
  | .evMsgInt v => (msg_int v s).1
  | .evBang => (bangHandler s).1
  | .evIdle => (onidle s).1
  | .evIdleOut => (onidleout s).1
  | .evDirectDraw v => (direct_draw v s).1
  | .evResize w h => { s with mg := { s.mg with width := w, height := h } }

/-- States reachable from script load (any host-supplied initial size) by any
event sequence. -/
inductive Reachable : State → Prop where
  | start (w h : ℚ) : Reachable (initState w h)
  | next {s : State} (hr : Reachable s) (e : Event) : Reachable (stepEv s e)

/-- The cache-coherence check: the cached image, when present, was built at
the current `imgScale`. -/
def cacheScaleOK (s : State) : Bool :=
  match s.cachedImg with
  | none => true
  | some img => img.builtAtScale == s.imgScale

/-- Auxiliary invariant: cache built at current scale, and direct mode implies
no cached image. -/
def ProgInv (s : State) : Prop :=
  cacheScaleOK s = true ∧ (s.useImage = false → s.cachedImg = none)

/-! ## Helper lemmas -/

/-- The command list produced by `drawStuff`: everything it draws, appended to
the target's prior commands.  The border rectangle is sized from the visible
(`mgraphics`) dimensions `visW, visH`, never from the target's own size. -/
theorem drawStuff_ops (visW visH : ℚ) (mg : MG) :
    (drawStuff visW visH mg).1.ops = mg.ops ++
      [DrawOp.lineWidthOp 1,
       DrawOp.translateOp (3/2) (3/2),
       DrawOp.rect 0 0 (visW - 3) (visH - 3),
       DrawOp.setSource live_lcd_bg,
       DrawOp.fillPreserveOp,
       DrawOp.setSource live_lcd_control_fg,
       DrawOp.strokeOp,
       DrawOp.setMatrixOp mg.matrix,
       DrawOp.fontFaceOp abletonFont,
       DrawOp.fontSizeOp 10,
       DrawOp.moveToOp 5 ((visH + 5) / 2),
       DrawOp.setSource live_lcd_control_fg_alt,
       DrawOp.showTextOp labelText] := by
  simp [drawStuff, MG.set_line_width, MG.get_matrix, MG.translate, MG.rectangle,
    MG.set_source_rgba, MG.fill_preserve, MG.stroke, MG.set_matrix,
    MG.select_font_face, MG.set_font_size, MG.move_to, MG.show_text,
    text_measure, labelText]
  norm_num

/-- `drawStuff` leaves the target's transform exactly as it found it. -/
theorem drawStuff_matrix (visW visH : ℚ) (mg : MG) :
    (drawStuff visW visH mg).1.matrix = mg.matrix := by
  simp [drawStuff, MG.set_line_width, MG.get_matrix, MG.translate, MG.rectangle,
    MG.set_source_rgba, MG.fill_preserve, MG.stroke, MG.set_matrix,
    MG.select_font_face, MG.set_font_size, MG.move_to, MG.show_text]

/-- `drawStuff` emits exactly one drawing-executed signal. -/
theorem drawStuff_trace (visW visH : ℚ) (mg : MG) :
    (drawStuff visW visH mg).2 = [TraceEvent.drawBang] := rfl

/-- The hover overlay never touches the transform. -/
theorem hoverOverlay_matrix (s : State) (mg : MG) :
    (hoverOverlay s mg).matrix = mg.matrix := by
  by_cases hi : s.idle <;>
    simp [hoverOverlay, hi, MG.set_source_rgba, MG.rectangle, MG.fill]

/-- The auxiliary invariant holds initially. -/
theorem progInv_init (w h : ℚ) : ProgInv (initState w h) := by
  constructor <;> simp [initState, cacheScaleOK]

/-- The auxiliary invariant is preserved by every event. -/
theorem progInv_step (s : State) (hs : ProgInv s) (e : Event) :
    ProgInv (stepEv s e) := by
  obtain ⟨h1, h2⟩ := hs
  cases e with
  | evPaint =>
    by_cases hu : s.useImage
    · cases hc : s.cachedImg with
      | none =>
        constructor <;> simp [stepEv, paint, hu, hc, cacheScaleOK, Image.ofMG]
      | some img =>
        have hb : (img.builtAtScale == s.imgScale) = true := by
          simpa [cacheScaleOK, hc] using h1
        constructor <;> simp [stepEv, paint, hu, hc, cacheScaleOK, hb]
    · have hu' : s.useImage = false := by simpa using hu
      have hcn : s.cachedImg = none := h2 hu'
      constructor <;> simp [stepEv, paint, hu', hcn, cacheScaleOK]
  | evMsgFloat v =>
    constructor <;> simp [stepEv, msg_float, cacheScaleOK]
  | evMsgInt v =>
    constructor <;> simp [stepEv, msg_int, msg_float, cacheScaleOK]
  | evBang =>
    constructor <;> simp [stepEv, bangHandler, cacheScaleOK]
  | evIdle =>
    refine ⟨?_, ?_⟩
    · simpa [stepEv, onidle, cacheScaleOK] using h1
    · intro hu; simpa [stepEv, onidle] using h2 (by simpa [stepEv, onidle] using hu)
  | evIdleOut =>
    refine ⟨?_, ?_⟩
    · simpa [stepEv, onidleout, cacheScaleOK] using h1
    · intro hu; simpa [stepEv, onidleout] using h2 (by simpa [stepEv, onidleout] using hu)
  | evDirectDraw v =>
    constructor <;> simp [stepEv, direct_draw, cacheScaleOK]
  | evResize w h =>
    refine ⟨?_, ?_⟩
    · simpa [stepEv, cacheScaleOK] using h1
    · intro hu; simpa [stepEv] using h2 (by simpa [stepEv] using hu)

/-- Every reachable state satisfies the auxiliary invariant. -/
theorem reachable_inv (s : State) (hr : Reachable s) : ProgInv s := by
  induction hr with
  | start w h => exact progInv_init w h
  | next hr e ih => exact progInv_step _ ih e

/-! ## Claims -/

/-- C1: starting from cached mode with an empty cache (any scale factor in
`[0.125, 8]`), the first paint call runs `drawStuff` exactly once and the
second paint call — with no intervening event — runs it zero times, performs
no new off-screen allocation, and leaves the cached image untouched: a pure
cache hit. -/
theorem paint_second_call_cache_hit (s : State)
    (hu : s.useImage = true) (hc : s.cachedImg = none)
    (hs : 1/8 ≤ s.imgScale ∧ s.imgScale ≤ 8) :
    countDraw (paint s).2 = 1 ∧
    countDraw (paint (paint s).1).2 = 0 ∧
    countAlloc (paint (paint s).1).2 = 0 ∧
    (paint (paint s).1).1.cachedImg = (paint s).1.cachedImg := by
  refine ⟨?_, ?_, ?_, ?_⟩ <;>
    simp [paint, hu, hc, countDraw, countAlloc, drawStuff]

/-- C1 witness: the property instantiated at the freshly loaded script with a
10×10 surface (scale factor 2). -/
theorem paint_second_call_cache_hit_wit :
    countDraw (paint (initState 10 10)).2 = 1 ∧
    countDraw (paint (paint (initState 10 10)).1).2 = 0 ∧
    countAlloc (paint (paint (initState 10 10)).1).2 = 0 ∧
    (paint (paint (initState 10 10)).1).1.cachedImg = (paint (initState 10 10)).1.cachedImg :=
  paint_second_call_cache_hit (initState 10 10) rfl rfl (by norm_num [initState])

/-- C3: on a cache miss in cached mode, the off-screen context is allocated at
exactly `(width * s, height * s)` for the visible surface's current size and
scale factor `s`; `scale(s, s)` is applied to it exactly once, before any
drawing command; and the stored image's content is exactly what `drawStuff`
draws into that freshly scaled context (one drawing-routine invocation). -/
theorem miss_builds_upscaled_offscreen (s : State)
    (hu : s.useImage = true) (hc : s.cachedImg = none) :
    (paint s).1.cachedImg.map Image.width = some (s.mg.width * s.imgScale) ∧
    (paint s).1.cachedImg.map Image.height = some (s.mg.height * s.imgScale) ∧
    TraceEvent.allocOffscreen (s.mg.width * s.imgScale) (s.mg.height * s.imgScale) ∈ (paint s).2 ∧
    (paint s).1.cachedImg.map (fun img => img.content.head?) =
      some (some (DrawOp.scaleOp s.imgScale s.imgScale)) ∧
    (paint s).1.cachedImg.map (fun img => countScaleOps img.content) = some 1 ∧
    (paint s).1.cachedImg.map Image.content =
      some ((drawStuff s.mg.width s.mg.height
        ((MG.new (s.mg.width * s.imgScale) (s.mg.height * s.imgScale)).scale
          s.imgScale s.imgScale)).1.ops) ∧
    countDraw (paint s).2 = 1 := by
  refine ⟨?_, ?_, ?_, ?_, ?_, ?_, ?_⟩ <;>
    simp [paint, hu, hc, countDraw, countScaleOps, Image.ofMG,
      MG.new, MG.scale, drawStuff, MG.set_line_width, MG.get_matrix,
      MG.translate, MG.rectangle, MG.set_source_rgba, MG.fill_preserve,
      MG.stroke, MG.set_matrix, MG.select_font_face, MG.set_font_size,
      MG.move_to, MG.show_text, text_measure]

/-- C3 witness: the property instantiated at the freshly loaded script with a
10×10 surface (scale factor 2, off-screen context 20×20). -/
theorem miss_builds_upscaled_offscreen_wit :
    (paint (initState 10 10)).1.cachedImg.map Image.width = some ((initState 10 10).mg.width * (initState 10 10).imgScale) ∧
    (paint (initState 10 10)).1.cachedImg.map Image.height = some ((initState 10 10).mg.height * (initState 10 10).imgScale) ∧
    TraceEvent.allocOffscreen ((initState 10 10).mg.width * (initState 10 10).imgScale) ((initState 10 10).mg.height * (initState 10 10).imgScale) ∈ (paint (initState 10 10)).2 ∧
    (paint (initState 10 10)).1.cachedImg.map (fun img => img.content.head?) =
      some (some (DrawOp.scaleOp (initState 10 10).imgScale (initState 10 10).imgScale)) ∧
    (paint (initState 10 10)).1.cachedImg.map (fun img => countScaleOps img.content) = some 1 ∧
    (paint (initState 10 10)).1.cachedImg.map Image.content =
      some ((drawStuff (initState 10 10).mg.width (initState 10 10).mg.height
        ((MG.new ((initState 10 10).mg.width * (initState 10 10).imgScale) ((initState 10 10).mg.height * (initState 10 10).imgScale)).scale
          (initState 10 10).imgScale (initState 10 10).imgScale)).1.ops) ∧
    countDraw (paint (initState 10 10)).2 = 1 :=
  miss_builds_upscaled_offscreen (initState 10 10) rfl rfl

/-- A visible surface whose pre-paint transform is `scale(2, 2)` rather than
the identity. -/
def preScaledState : State :=
  { initState 10 10 with mg := { MG.new 10 10 with matrix := ⟨2, 0, 0, 2, 0, 0⟩ } }

/-- C4 counterexample: with pre-paint transform `scale(2, 2)`, a cached-mode
paint call ends with the transform reset to the identity
(`identity_matrix()`), which differs from the pre-paint transform — the
round-trip identity does not hold for every pre-paint transform. -/
theorem paint_transform_roundtrip_cex :
    ¬ (paint preScaledState).1.mg.matrix = preScaledState.mg.matrix := by decide

/-- C4 amended: after a cached-mode paint call the visible surface's transform
equals the identity; hence it equals the pre-paint transform exactly when that
transform was the identity. -/
theorem paint_transform_identity (s : State) (hu : s.useImage = true) :
    (paint s).1.mg.matrix = Mat.idm := by
  cases hc : s.cachedImg <;>
    simp [paint, hu, hc, hoverOverlay_matrix, MG.identity_matrix,
      MG.image_surface_draw, MG.scale]

/-- C4 amended witness: at the freshly loaded script (identity pre-paint
transform) the post-paint transform is the identity, equal to the pre-paint
one. -/
theorem paint_transform_identity_wit :
    (paint (initState 10 10)).1.mg.matrix = Mat.idm :=
  paint_transform_identity (initState 10 10) rfl

/-- C5: `drawStuff` emits, for every target context, the border rectangle
`(0, 0, visW - 3, visH - 3)` sized from the visible surface's dimensions
passed in (`mgraphics.size`), never from the target's own `width`/`height`:
the full command list it appends depends only on `visW`, `visH` and the
target's entry transform. -/
theorem drawStuff_rect_from_outer_size (visW visH : ℚ) (mg : MG) :
    (drawStuff visW visH mg).1.ops = mg.ops ++
      [DrawOp.lineWidthOp 1,
       DrawOp.translateOp (3/2) (3/2),
       DrawOp.rect 0 0 (visW - 3) (visH - 3),
       DrawOp.setSource live_lcd_bg,
       DrawOp.fillPreserveOp,
       DrawOp.setSource live_lcd_control_fg,
       DrawOp.strokeOp,
       DrawOp.setMatrixOp mg.matrix,
       DrawOp.fontFaceOp abletonFont,
       DrawOp.fontSizeOp 10,
       DrawOp.moveToOp 5 ((visH + 5) / 2),
       DrawOp.setSource live_lcd_control_fg_alt,
       DrawOp.showTextOp labelText] :=
  drawStuff_ops visW visH mg

/-- C6: for every entry transform of the target context, `drawStuff` exits
with that same transform: it saves the matrix, applies `translate(1.5, 1.5)`,
restores by `set_matrix` with the saved value, and never emits a
reset-to-identity. -/
theorem drawStuff_transform_preserved (visW visH : ℚ) (mg : MG) :
    (drawStuff visW visH mg).1.matrix = mg.matrix ∧
    DrawOp.translateOp (3/2) (3/2) ∈ (drawStuff visW visH mg).1.ops ∧
    DrawOp.setMatrixOp mg.matrix ∈ (drawStuff visW visH mg).1.ops ∧
    DrawOp.identityOp ∉ (drawStuff visW visH mg).1.ops.drop mg.ops.length := by
  refine ⟨drawStuff_matrix visW visH mg, ?_, ?_, ?_⟩ <;>
    simp [drawStuff_ops visW visH mg]

/-- C2: in every reachable state the cached image, when present, was built at
a scale equal to the current configured scale factor — every handler that
changes the scale (`msg_float`/`msg_int`) or otherwise invalidates
(`bang`, `direct_draw`) clears the cache in the same step, before any later
paint is serviced. -/
theorem cache_coherence_reachable (s : State) (hr : Reachable s) :
    cacheScaleOK s = true :=
  (reachable_inv s hr).1

/-- C2 witness: the invariant checked at the reachable state obtained by one
paint call after load (cache built at the current scale factor 2). -/
theorem cache_coherence_reachable_wit :
    cacheScaleOK (stepEv (initState 10 10) Event.evPaint) = true :=
  cache_coherence_reachable (stepEv (initState 10 10) Event.evPaint)
    (Reachable.next (Reachable.start 10 10) Event.evPaint)

/-- C7: for every input `v`, `msg_float` stores
`Math.max(0.125, Math.min(8, v))`, which is the clamp of `v` into
`[0.125, 8]` (both clamp forms agree and the result lies in the interval); in
particular 10 stores exactly 8 and 0.01 stores exactly 0.125, and no error is
reported — the only emitted effect is a repaint request. -/
theorem msg_float_clamps (v : ℚ) (s : State) :
    (msg_float v s).1.imgScale = max (1/8 : ℚ) (min 8 v) ∧
    (msg_float v s).1.imgScale = min (8 : ℚ) (max (1/8) v) ∧
    (1/8 : ℚ) ≤ (msg_float v s).1.imgScale ∧
    (msg_float v s).1.imgScale ≤ 8 ∧
    (msg_float 10 s).1.imgScale = 8 ∧
    (msg_float (1/100) s).1.imgScale = 1/8 ∧
    (msg_float v s).2 = [TraceEvent.redrawRequest] := by
  have hform : max (1/8 : ℚ) (min 8 v) = min (8 : ℚ) (max (1/8) v) := by
    rw [max_min_distrib_left]
    norm_num
  refine ⟨rfl, ?_, ?_, ?_, ?_, ?_, rfl⟩
  · simpa [msg_float] using hform
  · simp [msg_float]
  · simp only [msg_float]
    rw [hform]; exact min_le_left _ _
  · simp [msg_float]; norm_num
  · simp [msg_float]; norm_num

/-- The state after one paint call on the freshly loaded script: its cache is
populated.  Used to instantiate the reachability-based claims. -/
def wSt : State := stepEv (initState 10 10) Event.evPaint

/-- C8: from any reachable state with a populated cache, hover-enter sets the
indicator flag and requests a repaint without touching the cache; the
following paint is a pure cache hit (zero `drawStuff` runs); hover-leave
clears the flag likewise without touching the cache; and the next paint is
again a pure cache hit, so the cache is never rebuilt across the sequence. -/
theorem hover_sequence_no_rebuild (s : State) (hr : Reachable s)
    (hc : s.cachedImg ≠ none) :
    (onidle s).1.idle = true ∧
    (onidle s).1.cachedImg = s.cachedImg ∧
    (onidle s).2 = [TraceEvent.redrawRequest] ∧
    countDraw (paint (onidle s).1).2 = 0 ∧
    (onidleout (paint (onidle s).1).1).1.idle = false ∧
    (onidleout (paint (onidle s).1).1).1.cachedImg = (paint (onidle s).1).1.cachedImg ∧
    (onidleout (paint (onidle s).1).1).2 = [TraceEvent.redrawRequest] ∧
    countDraw (paint (onidleout (paint (onidle s).1).1).1).2 = 0 ∧
    (paint (onidleout (paint (onidle s).1).1).1).1.cachedImg = s.cachedImg := by
  obtain ⟨img, himg⟩ := Option.ne_none_iff_exists'.mp hc
  have hu : s.useImage = true := by
    by_contra hfalse
    have : s.useImage = false := by simpa using hfalse
    exact hc ((reachable_inv s hr).2 this)
  refine ⟨rfl, rfl, rfl, ?_, rfl, ?_, rfl, ?_, ?_⟩ <;>
    simp [paint, onidle, onidleout, hu, himg, countDraw]

/-- C8 witness: the property at the reachable state reached by one paint after
load, whose cache is populated. -/
theorem hover_sequence_no_rebuild_wit :
    (onidle wSt).1.idle = true ∧
    (onidle wSt).1.cachedImg = wSt.cachedImg ∧
    (onidle wSt).2 = [TraceEvent.redrawRequest] ∧
    countDraw (paint (onidle wSt).1).2 = 0 ∧
    (onidleout (paint (onidle wSt).1).1).1.idle = false ∧
    (onidleout (paint (onidle wSt).1).1).1.cachedImg = (paint (onidle wSt).1).1.cachedImg ∧
    (onidleout (paint (onidle wSt).1).1).2 = [TraceEvent.redrawRequest] ∧
    countDraw (paint (onidleout (paint (onidle wSt).1).1).1).2 = 0 ∧
    (paint (onidleout (paint (onidle wSt).1).1).1).1.cachedImg = wSt.cachedImg :=
  hover_sequence_no_rebuild wSt
    (Reachable.next (Reachable.start 10 10) Event.evPaint)
    (by simp [wSt, stepEv, paint, initState])

/-- A paint call arriving with degenerate (non-positive) host-supplied surface
dimensions. -/
def degenState : State := initState 0 0

/-- C9 counterexample: with a 0×0 surface, `paint` reports no error to the
host and is not skipped — it still runs the drawing routine once and signals
paint completion.  The source contains no dimension check. -/
theorem paint_degenerate_not_skipped_cex :
    (paint degenState).2.any TraceEvent.isError = false ∧
    TraceEvent.paintBang ∈ (paint degenState).2 ∧
    countDraw (paint degenState).2 = 1 := by
  refine ⟨rfl, ?_, rfl⟩
  simp [paint, degenState, initState, MG.new, drawStuff]

/-- C9 amended: `paint` performs no validation of the surface dimensions at
all: for every state — non-positive dimensions included — it reports no error
to the host and never skips the call (the completion signal is always
emitted; degenerate geometry is passed straight to the drawing primitives). -/
theorem paint_never_reports_never_skips (s : State) :
    (paint s).2.any TraceEvent.isError = false ∧
    TraceEvent.paintBang ∈ (paint s).2 := by
  by_cases hu : s.useImage
  · cases hc : s.cachedImg <;>
      simp [paint, hu, hc, drawStuff, TraceEvent.isError]
  · have hu' : s.useImage = false := by simpa using hu
    simp [paint, hu', drawStuff, TraceEvent.isError]

/-- C10: `direct_draw(v)` enables cached mode exactly when `parseInt(v)`
equals 0; a non-numeric argument parses to `NaN` (`none`), so the comparison
fails and direct drawing is selected; and in every case the cached image is
cleared and a repaint is requested. -/
theorem direct_draw_mode_select (v : JSVal) (s : State) :
    (direct_draw v s).1.useImage = (parseIntJS v == some 0) ∧
    (parseIntJS v = none → (direct_draw v s).1.useImage = false) ∧
    (direct_draw v s).1.cachedImg = none ∧
    (direct_draw v s).2 = [TraceEvent.redrawRequest] ∧
    parseIntJS (JSVal.jsStr "direct") = none ∧
    (direct_draw (JSVal.jsStr "direct") s).1.useImage = false := by
  refine ⟨rfl, ?_, rfl, rfl, by decide, rfl⟩
  intro hn
  simp [direct_draw, hn]

/-- C10 witness: the non-numeric case instantiated at the symbol `"direct"`
on the freshly loaded script. -/
theorem direct_draw_mode_select_wit :
    (direct_draw (JSVal.jsStr "direct") (initState 10 10)).1.useImage =
        (parseIntJS (JSVal.jsStr "direct") == some 0) ∧
    (direct_draw (JSVal.jsStr "direct") (initState 10 10)).1.useImage = false ∧
    (direct_draw (JSVal.jsStr "direct") (initState 10 10)).1.cachedImg = none ∧
    (direct_draw (JSVal.jsStr "direct") (initState 10 10)).2 = [TraceEvent.redrawRequest] :=
  ⟨(direct_draw_mode_select (JSVal.jsStr "direct") (initState 10 10)).1,
   (direct_draw_mode_select (JSVal.jsStr "direct") (initState 10 10)).2.1 (by decide),
   (direct_draw_mode_select (JSVal.jsStr "direct") (initState 10 10)).2.2.1,
   (direct_draw_mode_select (JSVal.jsStr "direct") (initState 10 10)).2.2.2.1⟩
